import Mathlib

/-!
Verification development for the single-owner Telegram relay bot (`bot.py`).

The bot keeps four in-memory mapping tables (`message_mappings`,
`reaction_mappings`, `group_to_private_mappings`, `edit_mappings`) plus the
ephemeral `pending_messages` selection state, and a MongoDB-backed connection
store.  Python dicts are embedded as association lists with Python dict
semantics (assignment overwrites in place, `del` removes the key); string
keys of the form "gid_mid" built from two integers are embedded as integer
pairs, which is faithful because the underscore-joined rendering of two
integers is injective.  Platform calls (send/forward/edit/react) are
abstracted as oracles returning `Option`/`Bool` results: `none`/`false`
models the exception path of the corresponding `try`/`except` block.
-/

namespace ChatForward

/-- Lookup in an association list: Python `d.get(k)` / `d[k]`. -/
def dlookup {κ ν : Type} [DecidableEq κ] (k : κ) : List (κ × ν) → Option ν
  | [] => none
  | (k', v) :: rest => if k' = k then some v else dlookup k rest

/-- Assignment `d[k] = v` on a Python dict: overwrite in place if the key
exists, else append at the end (insertion order). -/
def dinsert {κ ν : Type} [DecidableEq κ] (k : κ) (v : ν) : List (κ × ν) → List (κ × ν)
  | [] => [(k, v)]
  | (k', v') :: rest => if k' = k then (k, v) :: rest else (k', v') :: dinsert k v rest

/-- Deletion `del d[k]` on a Python dict (keys are unique, so removing the
first occurrence is exact). -/
def ddelete {κ ν : Type} [DecidableEq κ] (k : κ) : List (κ × ν) → List (κ × ν)
  | [] => []
  | (k', v') :: rest => if k' = k then rest else (k', v') :: ddelete k rest

theorem dlookup_dinsert_self {κ ν : Type} [DecidableEq κ] (k : κ) (v : ν)
    (m : List (κ × ν)) : dlookup k (dinsert k v m) = some v := by
  induction m with
  | nil => simp [dinsert, dlookup]
  | cons hd tl ih =>
    obtain ⟨k', v'⟩ := hd
    by_cases h : k' = k
    · simp [dinsert, dlookup, h]
    · simp [dinsert, dlookup, h, ih]

theorem dlookup_dinsert_ne {κ ν : Type} [DecidableEq κ] {k k' : κ} (v : ν)
    (m : List (κ × ν)) (h : k' ≠ k) :
    dlookup k' (dinsert k v m) = dlookup k' m := by
  induction m with
  | nil => simp [dinsert, dlookup, Ne.symm h]
  | cons hd tl ih =>
    obtain ⟨k₀, v₀⟩ := hd
    by_cases h0 : k₀ = k
    · subst h0
      simp [dinsert, dlookup, Ne.symm h, h]
    · by_cases h1 : k₀ = k'
      · simp [dinsert, dlookup, h0, h1, Ne.symm h, h]
      · simp [dinsert, dlookup, h0, h1, ih]

theorem length_dinsert_of_absent {κ ν : Type} [DecidableEq κ] {k : κ} (v : ν)
    {m : List (κ × ν)} (h : dlookup k m = none) :
    (dinsert k v m).length = m.length + 1 := by
  induction m with
  | nil => simp [dinsert]
  | cons hd tl ih =>
    obtain ⟨k', v'⟩ := hd
    by_cases h0 : k' = k
    · simp [dlookup, h0] at h
    · simp [dlookup, h0] at h
      simp [dinsert, h0, ih h]

theorem dinsert_dinsert_same {κ ν : Type} [DecidableEq κ] (k : κ) (v v' : ν)
    (m : List (κ × ν)) : dinsert k v (dinsert k v' m) = dinsert k v m := by
  induction m with
  | nil => simp [dinsert]
  | cons hd tl ih =>
    obtain ⟨k₀, v₀⟩ := hd
    by_cases h0 : k₀ = k
    · simp [dinsert, h0]
    · simp [dinsert, h0, ih]

/-! ## Data model

Values of the four mapping tables, the pending-selection state, and the
MongoDB connection documents, as built by `bot.py`. -/

/-- Value of `message_mappings[forwarded_msg.message_id]` (bot.py lines
1086-1090): the origin of a group message forwarded into the private chat.
The stored `sender` user object is embedded by its user id. -/
structure FwdValue where
  original_group_message_id : Int
  sender : Int
  group_id : Int
  deriving DecidableEq

/-- Value of `group_to_private_mappings` and `reaction_mappings` entries:
the private-chat copy a group message corresponds to. -/
structure GPValue where
  private_chat_id : Int
  private_message_id : Int
  deriving DecidableEq

/-- One element of an `edit_mappings` list: a group copy of a dispatched
private message. -/
structure EditTarget where
  group_id : Int
  group_message_id : Int
  deriving DecidableEq

/-- The `message_data` dict built in `handle_private_message` (bot.py lines
834-908).  Platform file-reference ids for media are carried in `file_id`;
fields that a given message type does not set keep their defaults. -/
structure MessageData where
  mtype : String
  chat_id : Int
  message_id : Int
  text : String := ""
  file_id : String := ""
  caption : Option String := none
  preview : Option String := none
  deriving DecidableEq

/-- One entry of `pending_messages`: the payload awaiting group selection
plus the currently toggled groups. -/
structure PendingData where
  message_data : MessageData
  selected_groups : List Int
  deriving DecidableEq

/-- The five module-level mutable dicts of bot.py (lines 52-62) that make up
the routing state.  `active_groups` is a pure display cache and is omitted:
no routing decision reads it. -/
structure BotState where
  message_mappings : List (Int × FwdValue)
  reaction_mappings : List ((Int × Int) × GPValue)
  group_to_private_mappings : List ((Int × Int) × GPValue)
  edit_mappings : List ((Int × Int) × List EditTarget)
  pending_messages : List (Int × PendingData)
  deriving DecidableEq

/-- The empty routing state (process start). -/
def emptyState : BotState := ⟨[], [], [], [], []⟩

/-- A MongoDB document of the `connections` collection (bot.py
`save_connection` lines 81-100).  Timestamps are irrelevant to every claim
and omitted. -/
structure ConnDoc where
  owner_id : Int
  group_id : Int
  group_name : String
  group_username : String
  is_active : Bool
  deriving DecidableEq

/-- Mongo `update_one`: apply `f` to the first document matching `p`;
the boolean reports whether a document was matched (and hence modified,
since the updates in bot.py always change `disconnected_at`). -/
def updateOne (p : ConnDoc → Bool) (f : ConnDoc → ConnDoc) :
    List ConnDoc → List ConnDoc × Bool
  | [] => ([], false)
  | d :: rest =>
    if p d then (f d :: rest, true)
    else
      let r := updateOne p f rest
      (d :: r.1, r.2)

/-- `remove_connection` (bot.py lines 102-112): soft delete, sets
`is_active` to `False` on the matching document instead of deleting it. -/
def remove_connection (owner_id group_id : Int) (db : List ConnDoc) :
    List ConnDoc × Bool :=
  updateOne (fun d => d.owner_id == owner_id && d.group_id == group_id)
    (fun d => { d with is_active := false }) db

/-- `get_all_connections` (bot.py lines 114-129): the active connections of
an owner as a `group_id -> name` dict (username/timestamp fields are not
consulted by any handler logic and are dropped). -/
def get_all_connections (owner_id : Int) (db : List ConnDoc) :
    List (Int × String) :=
  (db.filter (fun d => d.owner_id == owner_id && d.is_active)).map
    (fun d => (d.group_id, d.group_name))

/-- `is_owner` (bot.py lines 76-78): the sender id equals the configured
owner id (the string/int comparison washes out in the embedding). -/
def is_owner (ownerId user_id : Int) : Bool := user_id == ownerId

/-! ## SelectionFlow: `handle_group_selection` (bot.py lines 228-404) -/

/-- Parsed form of the callback data strings routed to
`handle_group_selection` by the registered pattern
`^(select_group_|send_to_selected|select_all|cancel_send)`. -/
inductive CallbackData where
  | select_group (group_id : Int)
  | select_all
  | send_to_selected
  | cancel_send
  deriving DecidableEq

/-- Observable outcome of one `handle_group_selection` call: which reply the
owner receives (unauthorized notice, expired notice, re-rendered keyboard,
validation alert, dispatch summary, or cancel notice). -/
inductive SelOutcome where
  | unauthorized
  | expired
  | toggled (selected : List Int)
  | selectedAll (selected : List Int)
  | needSelection
  | dispatched (succ : Nat) (failed : List String)
  | cancelled
  deriving DecidableEq

/-- Failure label appended to `failed_forwards` (bot.py lines 386-387):
the group name from the connections dict (default an id label), then the id. -/
def failLabel (conns : List (Int × String)) (gid : Int) : String :=
  ((dlookup gid conns).getD ("ID: " ++ toString gid)) ++ " (ID: " ++ toString gid ++ ")"

/-- Table mutations performed after one successful send inside the dispatch
loop (bot.py lines 362-376): add the `group_to_private_mappings` entry keyed
by the new group message, then append the group copy to the
`edit_mappings` list of the source private message (creating it if absent). -/
def recordDispatchSuccess (md : MessageData) (gid mid : Int) (st : BotState) :
    BotState :=
  let gtp := dinsert (gid, mid) ⟨md.chat_id, md.message_id⟩ st.group_to_private_mappings
  let st1 := { st with group_to_private_mappings := gtp }
  let ekey := (md.chat_id, md.message_id)
  let em := dinsert ekey ((dlookup ekey st1.edit_mappings).getD [] ++ [⟨gid, mid⟩]) st1.edit_mappings
  { st1 with edit_mappings := em }

/-- One iteration of the dispatch loop body (bot.py lines 305-387): the
media-kind-appropriate send to `gid` is the oracle `gw` (`none` = the
`except` path); mutations happen only in the success branch, after the call. -/
def dispatchStep (md : MessageData) (gw : Int → Option Int) (st : BotState)
    (gid : Int) : BotState × Option Int :=
  match gw gid with
  | none => (st, none)
  | some mid => (recordDispatchSuccess md gid mid st, some mid)

/-- The `for group_id in selected_groups` dispatch loop (bot.py lines
305-387), accumulating `successful_forwards` and `failed_forwards`. -/
def dispatchLoop (md : MessageData) (gw : Int → Option Int)
    (conns : List (Int × String)) :
    List Int → BotState → Nat → List String → BotState × Nat × List String
  | [], st, succ, failed => (st, succ, failed)
  | gid :: rest, st, succ, failed =>
    match dispatchStep md gw st gid with
    | (st', some _) => dispatchLoop md gw conns rest st' (succ + 1) failed
    | (st', none) =>
      dispatchLoop md gw conns rest st' succ (failed ++ [failLabel conns gid])

/-- `handle_group_selection` (bot.py lines 228-404).  `conns` is the
`get_all_connections` snapshot, `gw` the per-group send oracle.  Returns the
new state, the owner-visible outcome, and the list of groups to which a send
was attempted. -/
def handle_group_selection (ownerId user_id : Int) (cd : CallbackData)
    (conns : List (Int × String)) (gw : Int → Option Int) (st : BotState) :
    BotState × SelOutcome × List Int :=
  if is_owner ownerId user_id = false then (st, .unauthorized, [])
  else
    match dlookup user_id st.pending_messages with
    | none => (st, .expired, [])
    | some pd =>
      let selected := pd.selected_groups
      match cd with
      | .select_group gid =>
        let sel' := if gid ∈ selected then selected.erase gid
                    else selected ++ [gid]
        let pm := dinsert user_id { pd with selected_groups := sel' } st.pending_messages
        ({ st with pending_messages := pm }, .toggled sel', [])
      | .select_all =>
        let sel' := conns.map Prod.fst
        let pm := dinsert user_id { pd with selected_groups := sel' } st.pending_messages
        ({ st with pending_messages := pm }, .selectedAll sel', [])
      | .send_to_selected =>
        if selected = [] then (st, .needSelection, [])
        else
          let r := dispatchLoop pd.message_data gw conns selected st 0 []
          let pm := ddelete user_id r.1.pending_messages
          ({ r.1 with pending_messages := pm }, .dispatched r.2.1 r.2.2, selected)
      | .cancel_send =>
        let pm := ddelete user_id st.pending_messages
        ({ st with pending_messages := pm }, .cancelled, [])

/-! ## RoutingEngine: `handle_private_message` (bot.py lines 692-927) -/

/-- Content of an inbound private message, following the duck-typed
"whichever media field is present" checks of bot.py.  `other` stands for a
message with none of the listed media fields and no text. -/
inductive PContent where
  | text (s : String)
  | sticker (fid : String)
  | photo (fid : String) (caption : Option String)
  | video (fid : String) (caption : Option String)
  | document (fid : String) (caption : Option String)
  | audio (fid : String) (caption : Option String)
  | voice (fid : String)
  | animation (fid : String) (caption : Option String)
  | other
  deriving DecidableEq

/-- An inbound private-chat message from the owner.  `reply_to` is
`update.message.reply_to_message.message_id` when present; the replied-to
message lives in the same private chat. -/
structure PrivateMsg where
  from_user : Int
  chat_id : Int
  message_id : Int
  reply_to : Option Int
  content : PContent
  deriving DecidableEq

/-- Caption suffix used by the media previews, Python
`(f" - {caption}" if caption else "")`. -/
def captionSuffix : Option String → String
  | some c => " - " ++ c
  | none => ""

/-- The `message_data` dict construction of `handle_private_message`
(bot.py lines 834-908), including the 100-character preview truncation for
text.  A message with no recognized field keeps the base dict:
type "text", text "Media message", no preview key. -/
def buildMessageData (msg : PrivateMsg) : MessageData :=
  match msg.content with
  | .sticker fid =>
    { mtype := "sticker", chat_id := msg.chat_id, message_id := msg.message_id,
      file_id := fid, preview := some "🎨 Sticker" }
  | .photo fid cap =>
    { mtype := "photo", chat_id := msg.chat_id, message_id := msg.message_id,
      file_id := fid, caption := cap, preview := some ("🖼️ Photo" ++ captionSuffix cap) }
  | .video fid cap =>
    { mtype := "video", chat_id := msg.chat_id, message_id := msg.message_id,
      file_id := fid, caption := cap, preview := some ("🎥 Video" ++ captionSuffix cap) }
  | .document fid cap =>
    { mtype := "document", chat_id := msg.chat_id, message_id := msg.message_id,
      file_id := fid, caption := cap, preview := some ("📄 Document" ++ captionSuffix cap) }
  | .audio fid cap =>
    { mtype := "audio", chat_id := msg.chat_id, message_id := msg.message_id,
      file_id := fid, caption := cap, preview := some ("🎵 Audio" ++ captionSuffix cap) }
  | .voice fid =>
    { mtype := "voice", chat_id := msg.chat_id, message_id := msg.message_id,
      file_id := fid, preview := some "🎤 Voice Message" }
  | .animation fid cap =>
    { mtype := "animation", chat_id := msg.chat_id, message_id := msg.message_id,
      file_id := fid, caption := cap, preview := some ("🎬 Animation" ++ captionSuffix cap) }
  | .text s =>
    { mtype := "text", chat_id := msg.chat_id, message_id := msg.message_id,
      text := s,
      preview := some (if s.length > 100 then s.take 97 ++ "..." else s) }
  | .other =>
    { mtype := "text", chat_id := msg.chat_id, message_id := msg.message_id,
      text := "Media message" }

/-- Owner-visible outcome of `handle_private_message`. -/
inductive PrivOutcome where
  | unauthorized
  | notConnected
  | noLongerConnected
  | replySent
  | replyFailed
  | selectionPrompt (preview : Option String)
  deriving DecidableEq

/-- Table mutations after a successful reply-threaded send into a group
(bot.py lines 790-816): the group copy of the reply is keyed into
`group_to_private_mappings`, appended to this reply's `edit_mappings` list,
and the original group message gets a backfilled `group_to_private_mappings`
entry pointing at the forwarded private copy, if absent. -/
def recordReplySuccess (msg : PrivateMsg) (rt : Int) (mapping : FwdValue)
    (sentId : Int) (st : BotState) : BotState :=
  let gtp := dinsert (mapping.group_id, sentId) ⟨msg.chat_id, msg.message_id⟩
      st.group_to_private_mappings
  let st1 := { st with group_to_private_mappings := gtp }
  let ekey := (msg.chat_id, msg.message_id)
  let em := dinsert ekey ((dlookup ekey st1.edit_mappings).getD [] ++
      [⟨mapping.group_id, sentId⟩]) st1.edit_mappings
  let st2 := { st1 with edit_mappings := em }
  let okey := (mapping.group_id, mapping.original_group_message_id)
  if (dlookup okey st2.group_to_private_mappings).isSome then st2
  else
    let gtp2 := dinsert okey ⟨msg.chat_id, rt⟩ st2.group_to_private_mappings
    { st2 with group_to_private_mappings := gtp2 }

/-- Fall-through of `handle_private_message` for a non-reply (or a reply
with no `message_mappings` entry), bot.py lines 833-927: build the payload,
store a fresh `pending_messages` entry with an empty selection, and show the
group-selection keyboard. -/
def startSelection (msg : PrivateMsg) (st : BotState) :
    BotState × PrivOutcome × List Int :=
  let md := buildMessageData msg
  let pm := dinsert msg.from_user ⟨md, []⟩ st.pending_messages
  ({ st with pending_messages := pm }, .selectionPrompt md.preview, [])

/-- `handle_private_message` (bot.py lines 692-927).  `conns` is the
`get_all_connections` snapshot; `gwRes` is the reply-threaded send oracle
(`some sentId` on success, `none` for the `except` path).  The third result
component lists the groups to which a send was attempted. -/
def handle_private_message (ownerId : Int) (msg : PrivateMsg)
    (conns : List (Int × String)) (gwRes : Option Int) (st : BotState) :
    BotState × PrivOutcome × List Int :=
  if is_owner ownerId msg.from_user = false then (st, .unauthorized, [])
  else if conns = [] then (st, .notConnected, [])
  else
    match msg.reply_to with
    | some rt =>
      match dlookup rt st.message_mappings with
      | some mapping =>
        if mapping.group_id ∈ conns.map Prod.fst then
          match gwRes with
          | none => (st, .replyFailed, [mapping.group_id])
          | some sentId =>
            (recordReplySuccess msg rt mapping sentId st, .replySent, [mapping.group_id])
        else (st, .noLongerConnected, [])
      | none => startSelection msg st
    | none => startSelection msg st

/-! ## Edit propagation: `handle_private_edit` (bot.py lines 929-995) -/

/-- An edited private message (`update.edited_message`). -/
structure EditedMsg where
  from_user : Int
  chat_id : Int
  message_id : Int
  text : Option String
  deriving DecidableEq

/-- The notice sent when the edited message has no `edit_mappings` entry
(bot.py lines 992-995). -/
def noEditMappingMsg : String :=
  "❌ No edit mapping found for this message. Only messages sent through the bot can be edited."

/-- The loop body over the `edit_mappings` targets (bot.py lines 952-971):
only text edits are attempted (the `if update.edited_message.text` guard);
the oracle `gwEdit` reports success of `edit_message_text`, `false` being
the `except` path.  Accumulates issued calls, the success count, and the
failure labels. -/
def editLoop (text : Option String) (gwEdit : Int → Int → Bool) :
    List EditTarget → List (Int × Int) × Nat × List String
  | [] => ([], 0, [])
  | t :: rest =>
    let r := editLoop text gwEdit rest
    match text with
    | none => r
    | some _ =>
      if gwEdit t.group_id t.group_message_id then
        ((t.group_id, t.group_message_id) :: r.1, r.2.1 + 1, r.2.2)
      else
        ((t.group_id, t.group_message_id) :: r.1, r.2.1,
         ("Group " ++ toString t.group_id ++ " (Message " ++
          toString t.group_message_id ++ ")") :: r.2.2)

/-- `handle_private_edit` (bot.py lines 929-995).  Returns the (unchanged)
state, the group-edit calls issued, and the notices sent to the owner. -/
def handle_private_edit (ownerId : Int) (msg : EditedMsg)
    (gwEdit : Int → Int → Bool) (st : BotState) :
    BotState × List (Int × Int) × List String :=
  if is_owner ownerId msg.from_user = false then (st, [], [])
  else
    let ekey := (msg.chat_id, msg.message_id)
    match dlookup ekey st.edit_mappings with
    | some targets =>
      let r := editLoop msg.text gwEdit targets
      let okMsgs := if r.2.1 > 0 then
          ["✅ Message updated in " ++ toString r.2.1 ++ " group(s)!"] else []
      let badMsgs := if r.2.2 ≠ [] then
          ["❌ Failed to update message in " ++ toString r.2.2.length ++ " group(s)"] else []
      (st, r.1, okMsgs ++ badMsgs)
    | none => (st, [], [noEditMappingMsg])

/-! ## Group-side admission: `handle_bot_related_group_messages`
(bot.py lines 997-1101) -/

/-- Leading-match check on character lists: does `hay` start with `nd`? -/
def leadMatch : List Char → List Char → Bool
  | [], _ => true
  | _ :: _, [] => false
  | a :: as, b :: bs => a == b && leadMatch as bs

/-- Substring occurrence on character lists, Python `nd in hay`. -/
def subList (nd : List Char) : List Char → Bool
  | [] => leadMatch nd []
  | c :: rest => leadMatch nd (c :: rest) || subList nd rest

/-- Python `needle in hay` on strings. -/
def strContainsSub (hay needle : String) : Bool := subList needle.data hay.data

/-- A structured message entity (`update.message.entities` element). -/
structure Entity where
  etype : String
  offset : Nat
  length : Nat
  deriving DecidableEq

/-- The replied-to message of a group message: its id and its sender. -/
structure ReplyInfo where
  message_id : Int
  from_user_id : Int
  deriving DecidableEq

/-- An inbound group-chat message. -/
structure GroupMsg where
  chat_id : Int
  message_id : Int
  from_user : Int
  reply_to : Option ReplyInfo
  text : Option String
  caption : Option String
  entities : List Entity
  deriving DecidableEq

/-- Python slice `text[offset : offset + length]` used for mention
entities (bot.py line 1040). -/
def mentionSlice (text : String) (e : Entity) : String :=
  String.mk ((text.data.drop e.offset).take e.length)

/-- The `is_bot_related` computation (bot.py lines 1012-1044): reply to the
bot identity, handle in text, handle in caption, or an exactly matching
mention entity.  `bu` is the bot username (guarded for truthiness as in the
source). -/
def isBotRelated (botId : Int) (bu : String) (m : GroupMsg) : Bool :=
  (match m.reply_to with
   | some r => r.from_user_id == botId
   | none => false) ||
  (match m.text with
   | some t => !(bu == "") && strContainsSub t ("@" ++ bu)
   | none => false) ||
  (match m.caption with
   | some c => !(bu == "") && strContainsSub c ("@" ++ bu)
   | none => false) ||
  m.entities.any (fun e =>
    e.etype == "mention" && !(bu == "") &&
    mentionSlice (m.text.getD "") e == "@" ++ bu)

/-- `handle_bot_related_group_messages` (bot.py lines 997-1101).  `gwMain`
is the `forward_message` oracle for the user's message (`none` = the
`except` path, in which case no mapping is stored).  The second result
lists issued forward calls as `(from_chat, message_id)` pairs; the failure
of the context forward only suppresses a cosmetic note and is not modelled
separately. -/
def handle_bot_related_group_messages (ownerId botId : Int) (bu : String)
    (m : GroupMsg) (conns : List (Int × String)) (gwMain : Option Int)
    (st : BotState) : BotState × List (Int × Int) :=
  if m.chat_id ∈ conns.map Prod.fst then
    if isBotRelated botId bu m then
      let ctxCalls := match m.reply_to with
        | some r => if r.from_user_id == botId then [(m.chat_id, r.message_id)] else []
        | none => []
      match gwMain with
      | none => (st, ctxCalls ++ [(m.chat_id, m.message_id)])
      | some fid =>
        let mm := dinsert fid ⟨m.message_id, m.from_user, m.chat_id⟩ st.message_mappings
        let st1 := { st with message_mappings := mm }
        let rm := dinsert (m.chat_id, m.message_id) ⟨ownerId, fid⟩ st1.reaction_mappings
        ({ st1 with reaction_mappings := rm }, ctxCalls ++ [(m.chat_id, m.message_id)])
    else (st, [])
  else (st, [])

/-! ## Reaction mirroring: `handle_message_reaction` (bot.py lines
1103-1218) -/

/-- Chat type of a reaction event. -/
inductive ChatType where
  | privateChat
  | group
  | supergroup
  | channel
  deriving DecidableEq

/-- A `message_reaction` update. -/
structure ReactionEvent where
  user_id : Int
  chat_id : Int
  message_id : Int
  chat_type : ChatType
  deriving DecidableEq

/-- `handle_message_reaction` (bot.py lines 1103-1218).  The handler never
mutates the tables; its observable effect is the list of
`set_message_reaction` calls issued, returned here as `(chat_id,
message_id)` targets in issue order.  In the private branch the
`message_mappings` check runs first, then the full scan of
`group_to_private_mappings` values; in the group branch the
`reaction_mappings` check runs first, then the `group_to_private_mappings`
key lookup — both branches apply every match. -/
def handle_message_reaction (ownerId : Int) (ev : ReactionEvent)
    (conns : List (Int × String)) (st : BotState) : List (Int × Int) :=
  match ev.chat_type with
  | .privateChat =>
    if is_owner ownerId ev.user_id = false then []
    else
      (match dlookup ev.message_id st.message_mappings with
       | some m => [(m.group_id, m.original_group_message_id)]
       | none => []) ++
      ((st.group_to_private_mappings.filter (fun e =>
          e.2.private_chat_id == ev.chat_id &&
          e.2.private_message_id == ev.message_id)).map
        (fun e => (e.1.1, e.1.2)))
  | .group | .supergroup =>
    if ev.chat_id ∈ conns.map Prod.fst then
      (match dlookup (ev.chat_id, ev.message_id) st.reaction_mappings with
       | some m => [(m.private_chat_id, m.private_message_id)]
       | none => []) ++
      (match dlookup (ev.chat_id, ev.message_id) st.group_to_private_mappings with
       | some m => [(m.private_chat_id, m.private_message_id)]
       | none => [])
    else []
  | .channel => []

/-! ## Claim theorems -/

/-- C9: for every pending selection whose selected set is empty, the
dispatch callback signals the validation alert and causes no state change:
no send is attempted, the pending selection is not cleared, and no mapping
table is modified. -/
theorem dispatch_empty_selection_no_change (ownerId : Int)
    (conns : List (Int × String)) (gw : Int → Option Int) (st : BotState)
    (pd : PendingData) (hp : dlookup ownerId st.pending_messages = some pd)
    (he : pd.selected_groups = []) :
    handle_group_selection ownerId ownerId .send_to_selected conns gw st
      = (st, .needSelection, []) := by
  simp [handle_group_selection, is_owner, hp, he]

theorem dispatch_empty_selection_no_change_witness :
    handle_group_selection 1 1 .send_to_selected [(10, "A")] (fun _ => none)
        { emptyState with pending_messages :=
            [(1, ⟨⟨"text", 1, 5, "hi", "", none, none⟩, []⟩)] }
      = ({ emptyState with pending_messages :=
            [(1, ⟨⟨"text", 1, 5, "hi", "", none, none⟩, []⟩)] },
         .needSelection, []) :=
  dispatch_empty_selection_no_change 1 [(10, "A")] (fun _ => none)
    { emptyState with pending_messages :=
        [(1, ⟨⟨"text", 1, 5, "hi", "", none, none⟩, []⟩)] }
    ⟨⟨"text", 1, 5, "hi", "", none, none⟩, []⟩ (by decide) rfl

/-- C10: a group-selection callback of any kind (toggle, select-all,
dispatch, cancel) from the owner while no pending selection exists replies
that the message data has expired and changes nothing: no send is issued
and no table or pending state is modified. -/
theorem callback_without_pending_no_change (ownerId : Int) (cd : CallbackData)
    (conns : List (Int × String)) (gw : Int → Option Int) (st : BotState)
    (hp : dlookup ownerId st.pending_messages = none) :
    handle_group_selection ownerId ownerId cd conns gw st
      = (st, .expired, []) := by
  simp [handle_group_selection, is_owner, hp]

theorem callback_without_pending_no_change_witness :
    handle_group_selection 1 1 .cancel_send [(10, "A")] (fun _ => some 7)
        emptyState = (emptyState, .expired, []) :=
  callback_without_pending_no_change 1 .cancel_send [(10, "A")]
    (fun _ => some 7) emptyState rfl

/-- C8: applying the select-all transition twice in succession yields the
same state (hence the same selected group ids) as applying it once, and the
selection after one application is exactly the full active-connection set. -/
theorem select_all_idempotent (ownerId : Int) (conns : List (Int × String))
    (gw : Int → Option Int) (st : BotState) (pd : PendingData)
    (hp : dlookup ownerId st.pending_messages = some pd) :
    (handle_group_selection ownerId ownerId .select_all conns gw
        (handle_group_selection ownerId ownerId .select_all conns gw st).1).1
      = (handle_group_selection ownerId ownerId .select_all conns gw st).1
    ∧ dlookup ownerId
        (handle_group_selection ownerId ownerId .select_all conns gw st).1.pending_messages
      = some ⟨pd.message_data, conns.map Prod.fst⟩ := by
  have h1 : (handle_group_selection ownerId ownerId .select_all conns gw st).1
      = { st with pending_messages :=
            dinsert ownerId ⟨pd.message_data, conns.map Prod.fst⟩ st.pending_messages } := by
    simp [handle_group_selection, is_owner, hp]
  constructor
  · rw [h1]
    simp [handle_group_selection, is_owner, dlookup_dinsert_self,
      dinsert_dinsert_same]
  · rw [h1]
    exact dlookup_dinsert_self _ _ _

theorem select_all_idempotent_witness :
    (handle_group_selection 1 1 .select_all [(10, "A"), (20, "B")] (fun _ => none)
        (handle_group_selection 1 1 .select_all [(10, "A"), (20, "B")] (fun _ => none)
          { emptyState with pending_messages :=
              [(1, ⟨⟨"text", 1, 5, "hi", "", none, none⟩, []⟩)] }).1).1
      = (handle_group_selection 1 1 .select_all [(10, "A"), (20, "B")] (fun _ => none)
          { emptyState with pending_messages :=
              [(1, ⟨⟨"text", 1, 5, "hi", "", none, none⟩, []⟩)] }).1
    ∧ dlookup 1
        (handle_group_selection 1 1 .select_all [(10, "A"), (20, "B")] (fun _ => none)
          { emptyState with pending_messages :=
              [(1, ⟨⟨"text", 1, 5, "hi", "", none, none⟩, []⟩)] }).1.pending_messages
      = some ⟨⟨"text", 1, 5, "hi", "", none, none⟩, [10, 20]⟩ :=
  select_all_idempotent 1 [(10, "A"), (20, "B")] (fun _ => none)
    { emptyState with pending_messages :=
        [(1, ⟨⟨"text", 1, 5, "hi", "", none, none⟩, []⟩)] }
    ⟨⟨"text", 1, 5, "hi", "", none, none⟩, []⟩ (by decide)

/-- C6: an edit of a private message whose key has no `edit_mappings` entry
issues zero group-edit calls, reports the "no edit mapping, only
bot-dispatched messages are editable" notice, and leaves the state
unchanged. -/
theorem edit_without_mapping_no_group_edit (ownerId : Int) (msg : EditedMsg)
    (gwEdit : Int → Int → Bool) (st : BotState)
    (ho : msg.from_user = ownerId)
    (hm : dlookup (msg.chat_id, msg.message_id) st.edit_mappings = none) :
    handle_private_edit ownerId msg gwEdit st = (st, [], [noEditMappingMsg]) := by
  simp [handle_private_edit, is_owner, ho, hm]

theorem edit_without_mapping_no_group_edit_witness :
    handle_private_edit 1 ⟨1, 1, 42, some "new text"⟩ (fun _ _ => true) emptyState
      = (emptyState, [], [noEditMappingMsg]) :=
  edit_without_mapping_no_group_edit 1 ⟨1, 1, 42, some "new text"⟩
    (fun _ _ => true) emptyState rfl rfl

/-- C2: mapping tables are mutated only after the platform call succeeds.
First conjunct: a failed fan-out send to one selected group leaves the
state exactly as it was before the attempt.  Second conjunct: a failed
reply-threaded send (reply with a `message_mappings` hit into a still
connected group) leaves the state exactly as it was, so no orphan entries
appear in any of the four tables. -/
theorem failed_send_leaves_tables_untouched (ownerId : Int) :
    (∀ (md : MessageData) (gw : Int → Option Int) (st : BotState) (gid : Int),
      gw gid = none → (dispatchStep md gw st gid).1 = st)
    ∧ (∀ (msg : PrivateMsg) (conns : List (Int × String)) (st : BotState)
        (rt : Int) (fwd : FwdValue),
        msg.from_user = ownerId → conns ≠ [] → msg.reply_to = some rt →
        dlookup rt st.message_mappings = some fwd →
        fwd.group_id ∈ conns.map Prod.fst →
        (handle_private_message ownerId msg conns none st).1 = st) := by
  constructor
  · intro md gw st gid h
    simp [dispatchStep, h]
  · intro msg conns st rt fwd ho hc hr hm hmem
    simp [handle_private_message, is_owner, ho, hc, hr, hm, hmem]

theorem failed_send_leaves_tables_untouched_witness :
    (dispatchStep ⟨"text", 1, 5, "hi", "", none, none⟩ (fun _ => none)
        emptyState 10).1 = emptyState
    ∧ (handle_private_message 1 ⟨1, 1, 7, some 3, .text "yo"⟩ [(10, "A")] none
        { emptyState with message_mappings := [(3, ⟨44, 9, 10⟩)] }).1
      = { emptyState with message_mappings := [(3, ⟨44, 9, 10⟩)] } :=
  ⟨(failed_send_leaves_tables_untouched 1).1 _ _ _ 10 rfl,
   (failed_send_leaves_tables_untouched 1).2 ⟨1, 1, 7, some 3, .text "yo"⟩
     [(10, "A")] _ 3 ⟨44, 9, 10⟩ rfl (by decide) rfl (by decide) (by decide)⟩

/-- C4 counterexample: an owner reply whose reply-target id is not a
`message_mappings` key does NOT leave the state unchanged — the handler
falls through to the selection flow and creates a pending selection, and
its outcome is the selection prompt, not a cannot-correlate error (no such
report exists on this path in bot.py lines 710-714 and 833-927). -/
theorem reply_unmapped_no_misserror_cex :
    (handle_private_message 1 ⟨1, 1, 10, some 99, .text "hi"⟩ [(5, "G")] none
        emptyState).1 ≠ emptyState
    ∧ (handle_private_message 1 ⟨1, 1, 10, some 99, .text "hi"⟩ [(5, "G")] none
        emptyState).2.1 = .selectionPrompt (some "hi") := by
  constructor
  · decide
  · decide

/-- C4 amended: an owner reply whose reply-target id is not a
`message_mappings` key is treated as a normal non-reply message: the
handler creates a pending selection holding the built payload with an empty
selected set and shows the group-selection prompt; it sends nothing to any
group and leaves the four mapping tables unchanged.  No cannot-correlate
error is reported. -/
theorem reply_unmapped_falls_through_to_selection (ownerId : Int)
    (msg : PrivateMsg) (conns : List (Int × String)) (gwRes : Option Int)
    (st : BotState) (rt : Int)
    (ho : msg.from_user = ownerId) (hc : conns ≠ [])
    (hr : msg.reply_to = some rt)
    (hm : dlookup rt st.message_mappings = none) :
    (handle_private_message ownerId msg conns gwRes st).1.pending_messages
        = dinsert msg.from_user ⟨buildMessageData msg, []⟩ st.pending_messages
    ∧ (handle_private_message ownerId msg conns gwRes st).1.message_mappings
        = st.message_mappings
    ∧ (handle_private_message ownerId msg conns gwRes st).1.reaction_mappings
        = st.reaction_mappings
    ∧ (handle_private_message ownerId msg conns gwRes st).1.group_to_private_mappings
        = st.group_to_private_mappings
    ∧ (handle_private_message ownerId msg conns gwRes st).1.edit_mappings
        = st.edit_mappings
    ∧ (handle_private_message ownerId msg conns gwRes st).2.1
        = .selectionPrompt (buildMessageData msg).preview
    ∧ (handle_private_message ownerId msg conns gwRes st).2.2 = [] := by
  have h : handle_private_message ownerId msg conns gwRes st = startSelection msg st := by
    simp [handle_private_message, is_owner, ho, hc, hr, hm]
  rw [h]
  simp [startSelection]

theorem reply_unmapped_falls_through_to_selection_witness :
    (handle_private_message 1 ⟨1, 1, 10, some 99, .text "hi"⟩ [(5, "G")] none
        emptyState).1.pending_messages
      = dinsert 1 ⟨buildMessageData ⟨1, 1, 10, some 99, .text "hi"⟩, []⟩ []
    ∧ (handle_private_message 1 ⟨1, 1, 10, some 99, .text "hi"⟩ [(5, "G")] none
        emptyState).2.2 = [] := by
  have h := reply_unmapped_falls_through_to_selection 1
    ⟨1, 1, 10, some 99, .text "hi"⟩ [(5, "G")] none emptyState 99
    rfl (by decide) rfl rfl
  exact ⟨h.1, h.2.2.2.2.2.2⟩

/-- C5: a message in a connected group that is neither a reply to the bot
identity nor contains the bot handle in its text, caption, or mention
entities is ignored entirely: no forward call is issued and no mapping
entry is created. -/
theorem unrelated_group_message_ignored (ownerId botId : Int) (bu : String)
    (m : GroupMsg) (conns : List (Int × String)) (gwMain : Option Int)
    (st : BotState)
    (hconn : m.chat_id ∈ conns.map Prod.fst)
    (h1 : ∀ r, m.reply_to = some r → r.from_user_id ≠ botId)
    (h2 : ∀ t, m.text = some t → strContainsSub t ("@" ++ bu) = false)
    (h3 : ∀ c, m.caption = some c → strContainsSub c ("@" ++ bu) = false)
    (h4 : ∀ e ∈ m.entities, e.etype = "mention" →
        mentionSlice (m.text.getD "") e ≠ "@" ++ bu) :
    handle_bot_related_group_messages ownerId botId bu m conns gwMain st
      = (st, []) := by
  have hbr : isBotRelated botId bu m = false := by
    unfold isBotRelated
    have b1 : (match m.reply_to with
        | some r => r.from_user_id == botId
        | none => false) = false := by
      cases hr : m.reply_to with
      | none => rfl
      | some r => simp [h1 r hr]
    have b2 : (match m.text with
        | some t => !(bu == "") && strContainsSub t ("@" ++ bu)
        | none => false) = false := by
      cases ht : m.text with
      | none => rfl
      | some t => simp [h2 t ht]
    have b3 : (match m.caption with
        | some c => !(bu == "") && strContainsSub c ("@" ++ bu)
        | none => false) = false := by
      cases hcap : m.caption with
      | none => rfl
      | some c => simp [h3 c hcap]
    have b4 : m.entities.any (fun e =>
        e.etype == "mention" && !(bu == "") &&
        mentionSlice (m.text.getD "") e == "@" ++ bu) = false := by
      rw [List.any_eq_false]
      intro e he
      by_cases hmention : e.etype = "mention"
      · simp [hmention, h4 e he hmention]
      · simp [hmention]
    rw [b1, b2, b3, b4]
    rfl
  simp [handle_bot_related_group_messages, hconn, hbr]

theorem unrelated_group_message_ignored_witness :
    handle_bot_related_group_messages 1 42 "mybot"
        ⟨5, 17, 9, none, some "hello there", none, []⟩ [(5, "G")] (some 33)
        emptyState
      = (emptyState, []) := by
  have h := unrelated_group_message_ignored 1 42 "mybot"
    ⟨5, 17, 9, none, some "hello there", none, []⟩ [(5, "G")] (some 33)
    emptyState (by decide)
    (by intro r hr; cases hr)
    (by intro t ht; cases ht; decide)
    (by intro c hc; cases hc)
    (by intro e he; cases he)
  exact h

/-- C3: reactions are mirrored into every match, not first-match-wins.
First conjunct: an owner reaction on a private message matching both a
`message_mappings` (ForwardMapping) entry and any `group_to_private_mappings`
entry gets a set-reaction call into the origin group message and into every
matching group copy.  Second conjunct: a group reaction matching both a
`reaction_mappings` entry and a `group_to_private_mappings` entry gets
set-reaction calls into both private-side targets. -/
theorem reaction_mirrors_all_matches (ownerId : Int)
    (conns : List (Int × String)) (st : BotState) :
    (∀ (ev : ReactionEvent) (fm : FwdValue) (e : (Int × Int) × GPValue),
      ev.chat_type = .privateChat → ev.user_id = ownerId →
      dlookup ev.message_id st.message_mappings = some fm →
      e ∈ st.group_to_private_mappings →
      e.2.private_chat_id = ev.chat_id →
      e.2.private_message_id = ev.message_id →
      (fm.group_id, fm.original_group_message_id)
          ∈ handle_message_reaction ownerId ev conns st
        ∧ (e.1.1, e.1.2) ∈ handle_message_reaction ownerId ev conns st)
    ∧ (∀ (ev : ReactionEvent) (rm gm : GPValue),
      (ev.chat_type = .group ∨ ev.chat_type = .supergroup) →
      ev.chat_id ∈ conns.map Prod.fst →
      dlookup (ev.chat_id, ev.message_id) st.reaction_mappings = some rm →
      dlookup (ev.chat_id, ev.message_id) st.group_to_private_mappings = some gm →
      (rm.private_chat_id, rm.private_message_id)
          ∈ handle_message_reaction ownerId ev conns st
        ∧ (gm.private_chat_id, gm.private_message_id)
          ∈ handle_message_reaction ownerId ev conns st) := by
  constructor
  · intro ev fm e ht hu hfm he hc hm
    have hcalls : handle_message_reaction ownerId ev conns st
        = [(fm.group_id, fm.original_group_message_id)] ++
          ((st.group_to_private_mappings.filter (fun e =>
              e.2.private_chat_id == ev.chat_id &&
              e.2.private_message_id == ev.message_id)).map
            (fun e => (e.1.1, e.1.2))) := by
      simp [handle_message_reaction, ht, is_owner, hu, hfm]
    rw [hcalls]
    constructor
    · exact List.mem_append_left _ (List.mem_singleton.mpr rfl)
    · refine List.mem_append_right _ ?_
      refine List.mem_map.mpr ⟨e, ?_, rfl⟩
      refine List.mem_filter.mpr ⟨he, ?_⟩
      simp [hc, hm]
  · intro ev rm gm ht hconn hrm hgm
    have hcalls : handle_message_reaction ownerId ev conns st
        = [(rm.private_chat_id, rm.private_message_id)] ++
          [(gm.private_chat_id, gm.private_message_id)] := by
      rcases ht with ht | ht <;>
        simp [handle_message_reaction, ht, hconn, hrm, hgm]
    rw [hcalls]
    constructor
    · exact List.mem_append_left _ (List.mem_singleton.mpr rfl)
    · exact List.mem_append_right _ (List.mem_singleton.mpr rfl)

theorem reaction_mirrors_all_matches_witness :
    ((10, 77) ∈ handle_message_reaction 1 ⟨1, 1, 5, .privateChat⟩ [(10, "G")]
        ⟨[(5, ⟨77, 9, 10⟩)], [((10, 77), ⟨1, 50⟩)],
         [((10, 100), ⟨1, 5⟩), ((10, 77), ⟨1, 60⟩)], [], []⟩
      ∧ (10, 100) ∈ handle_message_reaction 1 ⟨1, 1, 5, .privateChat⟩ [(10, "G")]
        ⟨[(5, ⟨77, 9, 10⟩)], [((10, 77), ⟨1, 50⟩)],
         [((10, 100), ⟨1, 5⟩), ((10, 77), ⟨1, 60⟩)], [], []⟩)
    ∧ ((1, 50) ∈ handle_message_reaction 1 ⟨9, 10, 77, .group⟩ [(10, "G")]
        ⟨[(5, ⟨77, 9, 10⟩)], [((10, 77), ⟨1, 50⟩)],
         [((10, 100), ⟨1, 5⟩), ((10, 77), ⟨1, 60⟩)], [], []⟩
      ∧ (1, 60) ∈ handle_message_reaction 1 ⟨9, 10, 77, .group⟩ [(10, "G")]
        ⟨[(5, ⟨77, 9, 10⟩)], [((10, 77), ⟨1, 50⟩)],
         [((10, 100), ⟨1, 5⟩), ((10, 77), ⟨1, 60⟩)], [], []⟩) :=
  ⟨(reaction_mirrors_all_matches 1 [(10, "G")]
      ⟨[(5, ⟨77, 9, 10⟩)], [((10, 77), ⟨1, 50⟩)],
       [((10, 100), ⟨1, 5⟩), ((10, 77), ⟨1, 60⟩)], [], []⟩).1
      ⟨1, 1, 5, .privateChat⟩ ⟨77, 9, 10⟩ ((10, 100), ⟨1, 5⟩)
      rfl rfl (by decide) (by decide) rfl rfl,
   (reaction_mirrors_all_matches 1 [(10, "G")]
      ⟨[(5, ⟨77, 9, 10⟩)], [((10, 77), ⟨1, 50⟩)],
       [((10, 100), ⟨1, 5⟩), ((10, 77), ⟨1, 60⟩)], [], []⟩).2
      ⟨9, 10, 77, .group⟩ ⟨1, 50⟩ ⟨1, 60⟩
      (Or.inl rfl) (by decide) (by decide) (by decide)⟩

/-- Membership characterization for `get_all_connections`. -/
theorem mem_get_all_connections (o g : Int) (db : List ConnDoc) :
    g ∈ (get_all_connections o db).map Prod.fst ↔
      ∃ d ∈ db, d.owner_id = o ∧ d.is_active = true ∧ d.group_id = g := by
  simp only [get_all_connections, List.map_map, List.mem_map, List.mem_filter,
    Function.comp]
  constructor
  · rintro ⟨d, ⟨hd, hp⟩, hg⟩
    simp only [Bool.and_eq_true, beq_iff_eq] at hp
    exact ⟨d, hd, hp.1, hp.2, hg⟩
  · rintro ⟨d, hd, h1, h2, h3⟩
    exact ⟨d, ⟨hd, by simp [h1, h2]⟩, h3⟩

/-- C7: disconnecting an active connection then listing connections never
shows that group, while the underlying document is retained (same number of
documents, a document for the pair still present) with `is_active` set to
`false` rather than being deleted.  The uniqueness hypothesis reflects the
upsert in `save_connection`, which keeps at most one document per
(owner, group) pair. -/
theorem disconnect_soft_delete_invariant (o g : Int) (db : List ConnDoc)
    (hu : db.countP (fun d => d.owner_id == o && d.group_id == g) ≤ 1)
    (hx : ∃ d ∈ db, d.owner_id = o ∧ d.group_id = g ∧ d.is_active = true) :
    g ∉ (get_all_connections o (remove_connection o g db).1).map Prod.fst
    ∧ (∃ d ∈ (remove_connection o g db).1,
        d.owner_id = o ∧ d.group_id = g ∧ d.is_active = false)
    ∧ (remove_connection o g db).1.length = db.length := by
  induction db with
  | nil => obtain ⟨d, hd, -⟩ := hx; cases hd
  | cons d rest ih =>
    by_cases hpd : (d.owner_id == o && d.group_id == g) = true
    · have hown : d.owner_id = o := by
        simp only [Bool.and_eq_true, beq_iff_eq] at hpd; exact hpd.1
      have hgrp : d.group_id = g := by
        simp only [Bool.and_eq_true, beq_iff_eq] at hpd; exact hpd.2
      have hdb' : (remove_connection o g (d :: rest)).1
          = { d with is_active := false } :: rest := by
        simp [remove_connection, updateOne, hpd]
      have hrest0 : rest.countP (fun d => d.owner_id == o && d.group_id == g) = 0 := by
        have hc : (d :: rest).countP (fun d => d.owner_id == o && d.group_id == g)
            = rest.countP (fun d => d.owner_id == o && d.group_id == g) + 1 := by
          simp [List.countP_cons, hpd]
        omega
      have hrestnone : ∀ e ∈ rest, ¬(e.owner_id = o ∧ e.group_id = g) := by
        intro e he hcontra
        have := List.countP_eq_zero.mp hrest0 e he
        simp [hcontra.1, hcontra.2] at this
      refine ⟨?_, ?_, ?_⟩
      · rw [hdb']
        intro hmem
        obtain ⟨e, he, h1, h2, h3⟩ := (mem_get_all_connections o g _).mp hmem
        rcases List.mem_cons.mp he with he | he
        · rw [he] at h2; simp at h2
        · exact hrestnone e he ⟨h1, h3⟩
      · rw [hdb']
        exact ⟨{ d with is_active := false }, List.mem_cons_self _ _,
          hown, hgrp, rfl⟩
      · rw [hdb']; simp
    · have hdb' : (remove_connection o g (d :: rest)).1
          = d :: (remove_connection o g rest).1 := by
        simp [remove_connection, updateOne, hpd]
      have hxrest : ∃ e ∈ rest, e.owner_id = o ∧ e.group_id = g ∧ e.is_active = true := by
        obtain ⟨e, he, h1, h2, h3⟩ := hx
        rcases List.mem_cons.mp he with he | he
        · exfalso; rw [he] at h1 h2; simp [h1, h2] at hpd
        · exact ⟨e, he, h1, h2, h3⟩
      have hurest : rest.countP (fun d => d.owner_id == o && d.group_id == g) ≤ 1 := by
        have hc : (d :: rest).countP (fun d => d.owner_id == o && d.group_id == g)
            = rest.countP (fun d => d.owner_id == o && d.group_id == g) := by
          simp only [List.countP_cons]
          simp [hpd]
        omega
      obtain ⟨ih1, ih2, ih3⟩ := ih hurest hxrest
      refine ⟨?_, ?_, ?_⟩
      · rw [hdb']
        intro hmem
        obtain ⟨e, he, h1, h2, h3⟩ := (mem_get_all_connections o g _).mp hmem
        rcases List.mem_cons.mp he with he | he
        · rw [he] at h1 h3; simp [h1, h3] at hpd
        · exact ih1 ((mem_get_all_connections o g _).mpr ⟨e, he, h1, h2, h3⟩)
      · rw [hdb']
        obtain ⟨e, he, h⟩ := ih2
        exact ⟨e, List.mem_cons_of_mem _ he, h⟩
      · rw [hdb']; simp [ih3]

theorem disconnect_soft_delete_invariant_witness :
    (10 : Int) ∉ (get_all_connections 1 (remove_connection 1 10
        [ConnDoc.mk 1 10 "G" "" true, ConnDoc.mk 1 20 "H" "" true]).1).map Prod.fst
    ∧ (∃ d ∈ (remove_connection 1 10
        [ConnDoc.mk 1 10 "G" "" true, ConnDoc.mk 1 20 "H" "" true]).1,
        d.owner_id = 1 ∧ d.group_id = 10 ∧ d.is_active = false)
    ∧ (remove_connection 1 10
        [ConnDoc.mk 1 10 "G" "" true, ConnDoc.mk 1 20 "H" "" true]).1.length
      = [ConnDoc.mk 1 10 "G" "" true, ConnDoc.mk 1 20 "H" "" true].length :=
  disconnect_soft_delete_invariant 1 10
    [ConnDoc.mk 1 10 "G" "" true, ConnDoc.mk 1 20 "H" "" true]
    (by decide)
    ⟨ConnDoc.mk 1 10 "G" "" true, by decide, rfl, rfl, rfl⟩

/-- The `group_to_private_mappings` mutation of one successful dispatch. -/
theorem recordDispatchSuccess_gtp (md : MessageData) (gid mid : Int)
    (st : BotState) :
    (recordDispatchSuccess md gid mid st).group_to_private_mappings
      = dinsert (gid, mid) ⟨md.chat_id, md.message_id⟩
          st.group_to_private_mappings := rfl

/-- The `edit_mappings` mutation of one successful dispatch. -/
theorem recordDispatchSuccess_edit (md : MessageData) (gid mid : Int)
    (st : BotState) :
    (recordDispatchSuccess md gid mid st).edit_mappings
      = dinsert (md.chat_id, md.message_id)
          ((dlookup (md.chat_id, md.message_id) st.edit_mappings).getD []
            ++ [⟨gid, mid⟩]) st.edit_mappings := rfl

/-- Invariant of the dispatch loop: with a duplicate-free selection and
platform-fresh message ids, the loop grows `group_to_private_mappings` by
one entry per success, appends exactly the succeeded groups to the
`edit_mappings` list of the source message, stores each success under its
(group id, sent message id) key, and touches no key outside the selection. -/
theorem dispatchLoop_spec (md : MessageData) (gw : Int → Option Int)
    (conns : List (Int × String)) (sel : List Int) :
    ∀ (st : BotState) (succ : Nat) (failed : List String),
      sel.Nodup →
      (∀ gid ∈ sel, ∀ mid, gw gid = some mid →
          dlookup (gid, mid) st.group_to_private_mappings = none) →
      ((dispatchLoop md gw conns sel st succ failed).1.group_to_private_mappings.length
          = st.group_to_private_mappings.length
            + (sel.filter (fun g => (gw g).isSome)).length)
      ∧ ((dlookup (md.chat_id, md.message_id)
            (dispatchLoop md gw conns sel st succ failed).1.edit_mappings).getD []
          = (dlookup (md.chat_id, md.message_id) st.edit_mappings).getD []
            ++ (sel.filter (fun g => (gw g).isSome)).map
                (fun g => ⟨g, (gw g).getD 0⟩))
      ∧ (∀ gid ∈ sel, ∀ mid, gw gid = some mid →
          dlookup (gid, mid)
              (dispatchLoop md gw conns sel st succ failed).1.group_to_private_mappings
            = some ⟨md.chat_id, md.message_id⟩)
      ∧ (∀ key : Int × Int, key.1 ∉ sel →
          dlookup key
              (dispatchLoop md gw conns sel st succ failed).1.group_to_private_mappings
            = dlookup key st.group_to_private_mappings) := by
  induction sel with
  | nil =>
    intro st succ failed hnd hfresh
    simp [dispatchLoop]
  | cons g0 rest ih =>
    intro st succ failed hnd hfresh
    have hg0notin : g0 ∉ rest := (List.nodup_cons.mp hnd).1
    have hndrest : rest.Nodup := (List.nodup_cons.mp hnd).2
    cases hgw : gw g0 with
    | some m0 =>
      have hstep : dispatchLoop md gw conns (g0 :: rest) st succ failed
          = dispatchLoop md gw conns rest (recordDispatchSuccess md g0 m0 st)
              (succ + 1) failed := by
        simp [dispatchLoop, dispatchStep, hgw]
      have hfresh2 : ∀ gid ∈ rest, ∀ mid, gw gid = some mid →
          dlookup (gid, mid)
              (recordDispatchSuccess md g0 m0 st).group_to_private_mappings
            = none := by
        intro gid hm mid hmid
        rw [recordDispatchSuccess_gtp]
        rw [dlookup_dinsert_ne]
        · exact hfresh gid (List.mem_cons_of_mem _ hm) mid hmid
        · intro hk
          exact hg0notin (by rw [← show gid = g0 from congrArg Prod.fst hk]; exact hm)
      obtain ⟨ih1, ih2, ih3, ih4⟩ :=
        ih (recordDispatchSuccess md g0 m0 st) (succ + 1) failed hndrest hfresh2
      have hfil : (g0 :: rest).filter (fun g => (gw g).isSome)
          = g0 :: rest.filter (fun g => (gw g).isSome) := by
        simp [List.filter_cons, hgw]
      rw [hstep]
      refine ⟨?_, ?_, ?_, ?_⟩
      · rw [ih1, recordDispatchSuccess_gtp,
          length_dinsert_of_absent _ (hfresh g0 (List.mem_cons_self _ _) m0 hgw),
          hfil]
        simp
        omega
      · rw [ih2, recordDispatchSuccess_edit, dlookup_dinsert_self, hfil]
        simp [hgw, List.append_assoc]
      · intro gid hm mid hmid
        rcases List.mem_cons.mp hm with h | h
        · subst h
          rw [hgw] at hmid
          injection hmid with hmid
          subst hmid
          rw [ih4 (gid, m0) hg0notin, recordDispatchSuccess_gtp,
            dlookup_dinsert_self]
        · exact ih3 gid h mid hmid
      · intro key hkey
        have hk1 : key.1 ∉ rest := fun h => hkey (List.mem_cons_of_mem _ h)
        have hkg0 : key.1 ≠ g0 := fun h => hkey (h ▸ List.mem_cons_self _ _)
        rw [ih4 key hk1, recordDispatchSuccess_gtp, dlookup_dinsert_ne]
        intro hk
        exact hkg0 (congrArg Prod.fst hk)
    | none =>
      have hstep : dispatchLoop md gw conns (g0 :: rest) st succ failed
          = dispatchLoop md gw conns rest st succ
              (failed ++ [failLabel conns g0]) := by
        simp [dispatchLoop, dispatchStep, hgw]
      have hfreshrest : ∀ gid ∈ rest, ∀ mid, gw gid = some mid →
          dlookup (gid, mid) st.group_to_private_mappings = none :=
        fun gid h mid hmid => hfresh gid (List.mem_cons_of_mem _ h) mid hmid
      obtain ⟨ih1, ih2, ih3, ih4⟩ :=
        ih st succ (failed ++ [failLabel conns g0]) hndrest hfreshrest
      have hfil : (g0 :: rest).filter (fun g => (gw g).isSome)
          = rest.filter (fun g => (gw g).isSome) := by
        simp [List.filter_cons, hgw]
      rw [hstep]
      refine ⟨?_, ?_, ?_, ?_⟩
      · rw [ih1, hfil]
      · rw [ih2, hfil]
      · intro gid hm mid hmid
        rcases List.mem_cons.mp hm with h | h
        · subst h
          rw [hgw] at hmid
          cases hmid
        · exact ih3 gid h mid hmid
      · intro key hkey
        exact ih4 key (fun h => hkey (List.mem_cons_of_mem _ h))

/-- C1: a dispatch of a pending message in which sends to exactly N of the
selected groups succeed adds exactly N `group_to_private_mappings` entries
— one per succeeded group, keyed by (group id, sent message id) and
pointing at the source private message — and the `edit_mappings` entry of
the source message lists exactly the groups whose send succeeded, not the
full attempted selection.  Freshness of the platform-assigned message ids
and duplicate-freeness of the selection (guaranteed by the toggle and
select-all transitions) are hypotheses. -/
theorem dispatch_updates_mappings_exactly (ownerId : Int)
    (conns : List (Int × String)) (gw : Int → Option Int) (st : BotState)
    (pd : PendingData)
    (hp : dlookup ownerId st.pending_messages = some pd)
    (hne : pd.selected_groups ≠ [])
    (hnd : pd.selected_groups.Nodup)
    (hfresh : ∀ gid ∈ pd.selected_groups, ∀ mid, gw gid = some mid →
        dlookup (gid, mid) st.group_to_private_mappings = none)
    (hek : dlookup (pd.message_data.chat_id, pd.message_data.message_id)
        st.edit_mappings = none) :
    ((handle_group_selection ownerId ownerId .send_to_selected conns gw
          st).1.group_to_private_mappings.length
        = st.group_to_private_mappings.length
          + (pd.selected_groups.filter (fun g => (gw g).isSome)).length)
    ∧ (((dlookup (pd.message_data.chat_id, pd.message_data.message_id)
          (handle_group_selection ownerId ownerId .send_to_selected conns gw
            st).1.edit_mappings).getD []).map (fun t => t.group_id)
        = pd.selected_groups.filter (fun g => (gw g).isSome))
    ∧ (∀ gid ∈ pd.selected_groups, ∀ mid, gw gid = some mid →
        dlookup (gid, mid)
            (handle_group_selection ownerId ownerId .send_to_selected conns gw
              st).1.group_to_private_mappings
          = some ⟨pd.message_data.chat_id, pd.message_data.message_id⟩) := by
  have hrun1 : (handle_group_selection ownerId ownerId .send_to_selected conns
        gw st).1.group_to_private_mappings
      = (dispatchLoop pd.message_data gw conns pd.selected_groups st 0
          []).1.group_to_private_mappings := by
    simp [handle_group_selection, is_owner, hp, hne]
  have hrun2 : (handle_group_selection ownerId ownerId .send_to_selected conns
        gw st).1.edit_mappings
      = (dispatchLoop pd.message_data gw conns pd.selected_groups st 0
          []).1.edit_mappings := by
    simp [handle_group_selection, is_owner, hp, hne]
  obtain ⟨h1, h2, h3, -⟩ :=
    dispatchLoop_spec pd.message_data gw conns pd.selected_groups st 0 [] hnd hfresh
  refine ⟨?_, ?_, ?_⟩
  · rw [hrun1, h1]
  · rw [hrun2, h2, hek]
    simp only [Option.getD_none, List.nil_append, List.map_map]
    have hcomp : ((fun t : EditTarget => t.group_id) ∘
        fun g => (⟨g, (gw g).getD 0⟩ : EditTarget)) = id := rfl
    rw [hcomp, List.map_id]
  · intro gid hm mid hmid
    rw [hrun1]
    exact h3 gid hm mid hmid

/-- Concrete sample payload for the dispatch witness. -/
def mdW : MessageData := ⟨"text", 1, 5, "hi", "", none, none⟩

/-- Concrete sample state for the dispatch witness: one pending message for
owner 1 with groups 10 and 20 selected. -/
def stW : BotState := { emptyState with pending_messages := [(1, ⟨mdW, [10, 20]⟩)] }

/-- Concrete send oracle for the dispatch witness: group 10 succeeds with
message id 100, every other send fails. -/
def gwW : Int → Option Int := fun g => if g = 10 then some 100 else none

theorem dispatch_updates_mappings_exactly_witness :
    ((handle_group_selection 1 1 .send_to_selected [(10, "A"), (20, "B")] gwW
          stW).1.group_to_private_mappings.length
        = stW.group_to_private_mappings.length
          + (([10, 20] : List Int).filter (fun g => (gwW g).isSome)).length)
    ∧ (((dlookup ((1 : Int), (5 : Int))
          (handle_group_selection 1 1 .send_to_selected [(10, "A"), (20, "B")]
            gwW stW).1.edit_mappings).getD []).map (fun t => t.group_id)
        = ([10, 20] : List Int).filter (fun g => (gwW g).isSome))
    ∧ dlookup ((10 : Int), (100 : Int))
        (handle_group_selection 1 1 .send_to_selected [(10, "A"), (20, "B")]
          gwW stW).1.group_to_private_mappings
      = some ⟨1, 5⟩ := by
  have h := dispatch_updates_mappings_exactly 1 [(10, "A"), (20, "B")] gwW stW
    ⟨mdW, [10, 20]⟩ (by decide) (by decide) (by decide)
    (fun gid _ mid _ => rfl) (by decide)
  exact ⟨h.1, h.2.1, h.2.2 10 (by decide) 100 (by decide)⟩

end ChatForward
